import Mathlib

/-!
Verification development for the cognihub_pyeffectref repository: a shallow
embedding in Lean 4 of the reactive runtime (`cognihub_pyeffectref/ref.py`,
`cognihub_pyeffectref/effect.py`), the read-only view and action gateway
(`cognihub_pyeffectref/view.py`), and the structural-type-inference helpers
(`type_test.py`), together with theorems settling the behavioural claims
about those modules.

Conventions of the embedding:
* Python objects whose identity matters (effect wrappers, registered
  functions, dynamically created TypedDict descriptors, per-view action
  tables) are represented by natural-number ids allocated from counters.
* Python dicts keyed by strings are association lists; assignment replaces
  an existing binding in place or appends a new one (`dictInsert`).
* Python sets are lists without duplicates; `set.add` is an
  insert-if-absent (`addSub`), matching the idempotence of `set.add`.
* Exceptions that the source catches and logs are modelled as diagnostic
  events in a log; exceptions that propagate are modelled with `Except`
  or an explicit `raised` result constructor.
-/

namespace PyEffectRef

/-! ## Execution Context Store and `EffectWrapper._run_sync_effect` /
`_run_async_effect` (`effect.py`, lines 26-40)

The store holds, per thread / per async task, at most one currently active
effect (`local._thread_local_current_effect.value` resp. the contextvar
`local._async_local_current_effect`).  An effect id stands for the
`EffectWrapper` instance.  The wrapped function is modelled as a transformer
of the current-effect slot (it may itself run nested effects, which read and
temporarily overwrite the slot) that either returns normally or raises. -/

/-- Result of running a wrapped Python function: a normal return value or a
raised exception (carried as a message). -/
inductive Outcome (ρ : Type) where
  | normal (v : ρ)
  | raised (msg : String)
deriving DecidableEq, Repr

/-- The current-effect slot of one execution context: `none` when no effect
is active, `some e` when effect `e` is the currently running effect. -/
abbrev EffectSlot := Option Nat

/-- Embedding of `EffectWrapper._run_sync_effect` (`effect.py` lines 26-33):
save the prior slot value, install the invoked effect `e` as current, run the
wrapped function `f` in that state, and in a `finally` block restore the
saved slot value — whether `f` returned normally or raised.  `f` maps the
slot state it starts in to the slot state it leaves behind plus its outcome;
the function's own slot manipulations are discarded by the restore. -/
def runSyncEffect (e : Nat) (f : EffectSlot → EffectSlot × Outcome ρ)
    (slot : EffectSlot) : EffectSlot × Outcome ρ :=
  let oldEffect := slot
  let res := f (some e)
  (oldEffect, res.2)

/-- Embedding of `EffectWrapper._run_async_effect` (`effect.py` lines 35-40):
`token = contextvar.set(self)` followed by `finally: contextvar.reset(token)`
restores the value the contextvar had when `set` was called, for normal
return and for a raise alike. -/
def runAsyncEffect (e : Nat) (f : EffectSlot → EffectSlot × Outcome ρ)
    (slot : EffectSlot) : EffectSlot × Outcome ρ :=
  let tokenPrior := slot
  let res := f (some e)
  (tokenPrior, res.2)

/-- Embedding of `EffectWrapper.__call__` (`effect.py` lines 16-24) for one
invocation: a stopped effect returns `none` (Python `None`, body never runs);
an active one dispatches to the sync or async runner (both have the same
slot discipline, so the sync runner stands for the selected branch). -/
def callEffect (isActive : Bool) (e : Nat)
    (f : EffectSlot → EffectSlot × Outcome ρ) (slot : EffectSlot) :
    EffectSlot × Option (Outcome ρ) :=
  if isActive then
    let r := runSyncEffect e f slot
    (r.1, some r.2)
  else
    (slot, none)

/-! ## `Ref` value writes and subscriber notification
(`ref.py`, lines 44-53 and 65-87)

A subscriber is either a synchronous callable (whose body may raise — the
flag models that) or an `async def` coroutine function, both identified by
an id.  `Ref._notify_subscribers` iterates over a snapshot of the
subscriber set; for each subscriber the whole dispatch is inside
`try/except`: a coroutine-function subscriber makes the loop body queue

`lambda: asyncio.create_task(callback(new_value, old_value))`

on the running event loop via `call_soon_threadsafe` (`ref.py` line 80) —
or, when `asyncio.get_running_loop()` raises `RuntimeError`, print an error
line — while a synchronous subscriber is invoked inline with
`(new_value, old_value)` and an exception from its body is caught and
printed.  Crucially, the queued lambda captures the loop variable
`callback` by reference (Python closes over the variable, not its current
value), and since `get_running_loop()` only succeeds on the loop's own
thread, every queued lambda runs after the whole `for` loop has finished,
when `callback` holds the last-iterated subscriber of the snapshot.  Each
queued lambda therefore calls the snapshot's last subscriber with
`(new_value, old_value)` — `new_value`/`old_value` are parameters, so those
are captured stably — regardless of which subscriber caused it to be
queued.  If that last subscriber is itself synchronous, its call still
executes and `asyncio.create_task` then raises `TypeError` on the
non-coroutine result, which the event loop logs.  The notification episode
is modelled in two phases: the `for` loop (`notifyLoop`), then the loop
draining the queued lambdas (`drainQueue`).  Nothing on any path escapes
the setter. -/

/-- A subscriber in a `Ref`'s subscriber set. -/
inductive Subscriber (α : Type) where
  | sync (id : Nat) (raises : Bool)
  | coro (id : Nat)
deriving DecidableEq, Repr

/-- The identifying id of a subscriber. -/
def Subscriber.subId : Subscriber α → Nat
  | .sync i _ => i
  | .coro i => i

/-- Whether a subscriber is a plain synchronous callable. -/
def Subscriber.isSync : Subscriber α → Bool
  | .sync _ _ => true
  | .coro _ => false

/-- Observable events of one notification episode (the setter's loop plus
the event loop later running what was queued). -/
inductive NotifyEvent (α : Type) where
  /-- a synchronous subscriber was invoked inline with `(new, old)` during
  the setter's loop. -/
  | invoked (id : Nat) (newV oldV : α)
  /-- one late-binding lambda was queued on the running loop
  (`call_soon_threadsafe`, `ref.py` line 80); the lambda holds no
  subscriber of its own — it will read the loop variable when it runs. -/
  | thunkQueued
  /-- a queued lambda later ran and invoked subscriber `id` — always the
  snapshot's last-iterated subscriber, by late binding — with
  `(new, old)`. -/
  | deferredCall (id : Nat) (newV oldV : α)
  /-- logged by the event loop: `asyncio.create_task` raised `TypeError`
  because the late-bound subscriber `id` was synchronous and its call
  returned a non-coroutine. -/
  | createTaskError (id : Nat)
  /-- printed diagnostic: cannot schedule an async callback outside a
  running event loop (`RuntimeError` caught, `ref.py` lines 81-82). -/
  | schedulingError (id : Nat)
  /-- printed diagnostic: a subscriber body raised (`ref.py` lines 86-87). -/
  | callbackError (id : Nat)
deriving DecidableEq, Repr

/-- One iteration of the `for` loop (`ref.py` lines 74-87).  `loopRunning`
tells whether `asyncio.get_running_loop()` succeeds.  All exceptional paths
are caught by the source's handlers, so the result is a plain event
list. -/
def notifyOne (loopRunning : Bool) (oldV newV : α) :
    Subscriber α → List (NotifyEvent α)
  | .coro i =>
      if loopRunning then [.thunkQueued]
      else [.schedulingError i]
  | .sync i raises =>
      if raises then [.invoked i newV oldV, .callbackError i]
      else [.invoked i newV oldV]

/-- The `for` loop over the snapshot of the subscriber set
(`Ref._notify_subscribers`, phase one of the episode). -/
def notifyLoop (loopRunning : Bool) (oldV newV : α) :
    List (Subscriber α) → List (NotifyEvent α)
  | [] => []
  | s :: rest =>
      notifyOne loopRunning oldV newV s ++ notifyLoop loopRunning oldV newV rest

/-- How many coroutine-function subscribers queue a lambda during the loop
(one each, when a loop is running). -/
def queuedCount (subs : List (Subscriber α)) : Nat :=
  (subs.filter fun s => !s.isSync).length

/-- What one queued lambda does when the event loop later runs it: it calls
`callback(new_value, old_value)` with `callback` late-bound to the
snapshot's last-iterated subscriber.  A coroutine-function target becomes a
created task running with `(new, old)`; a synchronous target is called (its
body may raise, caught and logged by the loop) and then
`asyncio.create_task` fails on the non-coroutine result. -/
def runThunk (oldV newV : α) : Subscriber α → List (NotifyEvent α)
  | .coro j => [.deferredCall j newV oldV]
  | .sync j raises =>
      if raises then [.deferredCall j newV oldV, .callbackError j]
      else [.deferredCall j newV oldV, .createTaskError j]

/-- Phase two of the episode: the running event loop drains the queued
lambdas, each of which invokes the snapshot's last-iterated subscriber. -/
def drainQueue (loopRunning : Bool) (oldV newV : α)
    (subs : List (Subscriber α)) : List (NotifyEvent α) :=
  if loopRunning then
    match subs.getLast? with
    | some lastSub =>
        (List.replicate (queuedCount subs) (runThunk oldV newV lastSub)).flatten
    | none => []
  else []

/-- The whole notification episode: the setter's loop followed by the
deferred, late-bound invocations. -/
def notifyAll (loopRunning : Bool) (oldV newV : α)
    (subs : List (Subscriber α)) : List (NotifyEvent α) :=
  notifyLoop loopRunning oldV newV subs ++ drainQueue loopRunning oldV newV subs

/-- A `Ref`'s state: the stored value and the subscriber set (as the
snapshot list the notifier takes; the set invariant of no duplicate
subscriber identity is a hypothesis where needed). -/
structure RefState (α : Type) where
  value : α
  subscribers : List (Subscriber α)
deriving Repr, DecidableEq

/-- Embedding of the `Ref.value` setter (`ref.py` lines 44-53): when the
new value equals the current one (Python `!=` is value equality) nothing
happens; otherwise the value is stored and the subscribers are notified
with `(old_value, new_value)`.  Returns the new state and the full
notification-episode log. -/
def setValue [DecidableEq α] (loopRunning : Bool) (r : RefState α) (v : α) :
    RefState α × List (NotifyEvent α) :=
  if r.value = v then (r, [])
  else ({ r with value := v }, notifyAll loopRunning r.value v r.subscribers)

/-- The `(new, old)` payloads delivered to subscriber `i` in a log: inline
invocations and deferred (late-bound) calls carry the payload; diagnostics
and bare queueings do not. -/
def deliveredPayloads (log : List (NotifyEvent α)) (i : Nat) : List (α × α) :=
  log.filterMap fun ev =>
    match ev with
    | .invoked j n o => if j = i then some (n, o) else none
    | .deferredCall j n o => if j = i then some (n, o) else none
    | _ => none

/-! ## The full read/write/effect loop (`ref.py` getter + `effect.py`)

For dependency collection we model a world of `Ref`s holding `Nat` values
(ref ids and effect ids are `Nat`).  The `Ref.value` getter (`ref.py` lines
25-42) adds the currently active effect, if any, to the ref's subscriber set
(`set.add`, idempotent) and returns the stored value — and nothing ever
removes an effect from a subscriber set (`EffectWrapper.stop`, `effect.py`
lines 42-49, explicitly only clears `_is_active`).  An effect's wrapped
function is modelled by its read trace: the list of refs it reads, as a
function of the current ref values (effect bodies in the tracked claims only
read; the notification arguments `(new, old)` are accepted and ignored, as
with a Python `*args` function).  `writeRef` is the `Ref.value` setter whose
notification loop invokes subscribed effect wrappers. -/

/-- The world state: ref values, per-ref subscriber sets of effect ids,
per-effect active flags, the thread's current-effect slot, and a log of
effect-body executions (one entry per run, in order). -/
structure RWorld where
  vals : Nat → Nat
  subs : Nat → List Nat
  isActive : Nat → Bool
  ctx : Option Nat
  runs : List Nat

/-- Idempotent `set.add` of an effect id. -/
def addSub (e : Nat) (l : List Nat) : List Nat :=
  if e ∈ l then l else l ++ [e]

/-- Dependency collection of the `Ref.value` getter (`ref.py` lines 25-42):
if an effect is current in the execution context, register it as a
subscriber of ref `r`; the read itself returns `vals r` and changes no
value. -/
def readRef (w : RWorld) (r : Nat) : RWorld :=
  match w.ctx with
  | some e =>
      { w with subs := fun r2 => if r2 = r then addSub e (w.subs r2) else w.subs r2 }
  | none => w

/-- One execution of an effect's body (`EffectWrapper._run_sync_effect`):
record the run, save the current-effect slot, install `e`, perform the
body's reads (each read collects dependencies via `readRef`), restore the
slot. -/
def runEffectBody (bodies : Nat → (Nat → Nat) → List Nat) (w : RWorld)
    (e : Nat) : RWorld :=
  let oldEffect := w.ctx
  let w1 := { w with ctx := some e, runs := w.runs ++ [e] }
  let w2 := (bodies e w1.vals).foldl readRef w1
  { w2 with ctx := oldEffect }

/-- Embedding of `EffectWrapper.__call__` (`effect.py` lines 16-24): a stopped effect
returns without executing the body. -/
def invokeEffect (bodies : Nat → (Nat → Nat) → List Nat) (w : RWorld)
    (e : Nat) : RWorld :=
  if w.isActive e then runEffectBody bodies w e else w

/-- The `Ref.value` setter (`ref.py` lines 44-53) on ref `r`: on an unequal
write, store the value and notify the snapshot of `r`'s subscribers — each
subscribed effect wrapper is called (the effect re-runs unless stopped). -/
def writeRef (bodies : Nat → (Nat → Nat) → List Nat) (w : RWorld)
    (r v : Nat) : RWorld :=
  if w.vals r = v then w
  else
    let w1 := { w with vals := fun r2 => if r2 = r then v else w.vals r2 }
    (w.subs r).foldl (invokeEffect bodies) w1

/-- Embedding of `EffectWrapper.stop` (`effect.py` lines 42-49): set `_is_active` to
`False`; nothing else changes — in particular no subscriber set is touched
and no error is raised (calling it again is harmless). -/
def stopEffect (w : RWorld) (e : Nat) : RWorld :=
  { w with isActive := fun e2 => if e2 = e then false else w.isActive e2 }

/-- The operations a client can perform after some point in time: manually
invoke an effect, write a ref (which may trigger dependency-notified
re-invocations), or stop an effect. -/
inductive ROp where
  | invoke (e : Nat)
  | write (r v : Nat)
  | stopIt (e : Nat)

/-- Apply one operation to the world. -/
def applyROp (bodies : Nat → (Nat → Nat) → List Nat) (w : RWorld) :
    ROp → RWorld
  | .invoke e => invokeEffect bodies w e
  | .write r v => writeRef bodies w r v
  | .stopIt e => stopEffect w e

/-- Apply a sequence of operations. -/
def applyROps (bodies : Nat → (Nat → Nat) → List Nat) (w : RWorld)
    (ops : List ROp) : RWorld :=
  ops.foldl (applyROp bodies) w

/-! ### Concrete scenario for the per-run dependency-collection claim

Ref `0` plays container `A` (`show_age`), ref `1` plays container `B`
(`age`).  Effect `0` reads `A` and, when `A`'s value is `1` (truthy), also
reads `B` — exactly the conditional-read effect of
`examples/effect_basics.py` lines 72-82. -/

/-- The body table of the scenario: effect `0` reads ref `0`, then ref `1`
if ref `0` currently holds `1`; other effect ids read nothing. -/
def condBodies : Nat → (Nat → Nat) → List Nat := fun e vals =>
  if e = 0 then 0 :: (if vals 0 = 1 then [1] else []) else []

/-- Initial world of the scenario: `A = 1` (true), `B = 7`, no subscribers,
every effect active, no effect current, nothing run yet. -/
def condW0 : RWorld :=
  { vals := fun r => if r = 0 then 1 else 7
    subs := fun _ => []
    isActive := fun _ => true
    ctx := none
    runs := [] }

/-- Scenario after the first (manual) run of effect `0`: it read both `A`
and `B`. -/
def condW1 : RWorld := invokeEffect condBodies condW0 0

/-- Scenario after additionally writing `A := 0` (false): the dependency
notification re-runs effect `0`, which this time reads only `A`. -/
def condW2 : RWorld := writeRef condBodies condW1 0 0

/-- Scenario after additionally writing `B := 99`. -/
def condW3 : RWorld := writeRef condBodies condW2 1 99

/-! ## `ReadOnlyView` and `ActionExecutor` (`view.py`)

Python functions are values with an identity and a `__name__` (the
anonymous-function marker is the literal name `<lambda>`).  Errors that
propagate are modelled structurally, each constructor carrying the name the
source interpolates into its message. -/

/-- Propagating Python errors, by kind, carrying the name the raising site
interpolates into the message (e.g. `AttributeError("'ReadOnlyView' object
has no attribute <name>")`, `KeyError("<key> not found in ReadOnlyView.")`). -/
inductive PyError where
  | attributeErr (missing : String)
  | keyErr (missing : String)
  | typeMismatch (msg : String)
deriving DecidableEq, Repr

/-- A Python function object: identity plus `__name__`. -/
structure PyFunc where
  fid : Nat
  fname : String
deriving DecidableEq, Repr

/-- A name-keyed table of registered actions (a Python dict mapping an
action name to the function object, represented by its id). -/
abbrev ActionTable := List (String × Nat)

/-- Association-list lookup, the embedding of Python `d[k]` /
`k in d`-guarded access. -/
def alistLookup : List (String × β) → String → Option β
  | [], _ => none
  | (k2, v2) :: rest, k => if k2 = k then some v2 else alistLookup rest k

/-- Python dict assignment `d[k] = v`: replace an existing binding in place
or append a new one. -/
def dictInsert : List (String × β) → String → β → List (String × β)
  | [], k, v => [(k, v)]
  | (k2, v2) :: rest, k, v =>
      if k2 = k then (k, v) :: rest else (k2, v2) :: dictInsert rest k v

/-- The heap of action-table dict objects: Python dict identity is a table
id; `fresh` is the next unused id.  A `ReadOnlyView.__init__` allocates a
brand-new empty dict here (`view.py` lines 43-46). -/
structure ViewHeap where
  tables : Nat → ActionTable
  fresh : Nat

/-- A `ReadOnlyView`: the wrapped `ReactiveDict` (by id) and this instance's
own `_allowed_actions` dict (by table id). -/
structure ReadOnlyView where
  recId : Nat
  tableId : Nat
deriving DecidableEq, Repr

/-- An `ActionExecutor` holds `self._allowed_actions` — the very dict object
the constructing call passed in (`view.py` lines 12-13), i.e. the same table
id, not a copy. -/
structure ActionExecutor where
  tableId : Nat
deriving DecidableEq, Repr

/-- Embedding of `ReadOnlyView.__init__` (`view.py` lines 43-46): store the record and
allocate a fresh, empty, instance-private `_allowed_actions` dict. -/
def mkReadOnlyView (h : ViewHeap) (recId : Nat) : ViewHeap × ReadOnlyView :=
  ({ tables := fun i => if i = h.fresh then [] else h.tables i
     fresh := h.fresh + 1 },
   { recId := recId, tableId := h.fresh })

/-- Overwrite one table in the heap (a mutation of that dict object). -/
def setTable (h : ViewHeap) (i : Nat) (t : ActionTable) : ViewHeap :=
  { h with tables := fun j => if j = i then t else h.tables j }

/-- The single argument shapes of `ReadOnlyView.__call__`
(`view.py` line 101): no argument (`func is None`), a callable, a string,
or anything else. -/
inductive ViewCallArg where
  | noArg
  | fn (f : PyFunc)
  | strArg (s : String)
  | otherArg
deriving DecidableEq, Repr

/-- What a `ReadOnlyView.__call__` invocation produces. -/
inductive ViewCallResult where
  /-- case 1: an `ActionExecutor` over the view's action dict. -/
  | executor (ex : ActionExecutor)
  /-- case 2: the registered function itself, returned unchanged. -/
  | fnRes (f : PyFunc)
  /-- case 3: the inner decorator closing over the view and the supplied
  action name. -/
  | registrar (s : String)
  /-- a raised `TypeError`. -/
  | raised (e : PyError)
deriving DecidableEq, Repr

/-- Embedding of `ReadOnlyView.__call__` (`view.py` lines 101-144).
Case 1 (`func is None`): return `ActionExecutor(self._allowed_actions)`.
Case 2 (callable): reject the anonymous-function marker with a `TypeError`
(nothing registered); otherwise register under `func.__name__` and return
`func`.  Case 3 (string): return the inner decorator.  Otherwise: raise a
`TypeError` describing the three valid calling shapes. -/
def viewCall (h : ViewHeap) (v : ReadOnlyView) (arg : ViewCallArg) :
    ViewHeap × ViewCallResult :=
  match arg with
  | .noArg => (h, .executor { tableId := v.tableId })
  | .fn f =>
      if f.fname = "<lambda>" then
        (h, .raised (.typeMismatch "anonymous function needs an explicit action name"))
      else
        (setTable h v.tableId (dictInsert (h.tables v.tableId) f.fname f.fid),
         .fnRes f)
  | .strArg s => (h, .registrar s)
  | .otherArg =>
      (h, .raised (.typeMismatch "ReadOnlyView can only be called with no argument, a callable, or an action-name string"))

/-- Applying the inner decorator `decorator_with_name` (`view.py` lines
129-136) produced by `view(action_name)` to a function `g`: register `g`
under the captured name in the captured view's action dict — the name check
is commented out, so anonymous functions are permitted — and return `g`
unchanged. -/
def registrarApply (h : ViewHeap) (v : ReadOnlyView) (s : String)
    (g : PyFunc) : ViewHeap × PyFunc :=
  (setTable h v.tableId (dictInsert (h.tables v.tableId) s g.fid), g)

/-- Embedding of `ActionExecutor.__getattr__` (`view.py` lines 15-26): a registered name
yields a wrapper forwarding every argument to the original function (the
original function, by id, is what ends up invoked); an unregistered name
raises `AttributeError` naming the action. -/
def executorGetattr (h : ViewHeap) (ex : ActionExecutor) (name : String) :
    Except PyError Nat :=
  match alistLookup (h.tables ex.tableId) name with
  | some fid => .ok fid
  | none => .error (.attributeErr name)

/-! ### Read access through a view (`view.py` lines 48-83)

The wrapped `ReactiveDict`'s `_data_refs` is a dict from keys to `Ref`s
whose values are either nested `ReactiveDict`s or leaf values (the
`ReactiveDict` class itself is not part of `src/`; all that
`ReadOnlyView.__getattr__` / `__getitem__` consult is the `_data_refs`
mapping and whether a stored value `isinstance`-checks as a nested record,
which the entries list embeds directly). -/

/-- A value stored in a key's `Ref`: a nested reactive record (with its own
entries) or a leaf value. -/
inductive DictVal where
  | nestedRec (entries : List (String × DictVal))
  | leafVal (n : Nat)

/-- What a view read returns: a fresh `ReadOnlyView` over a nested record,
or a `ReadOnlyRef` over the leaf's container (identified by its value
here). -/
inductive ViewRead where
  | subView (entries : List (String × DictVal))
  | roRef (n : Nat)

/-- Embedding of `ReadOnlyView.__getattr__` (`view.py` lines 48-67): an absent key raises
`AttributeError` naming the missing attribute; a nested record yields a
`ReadOnlyView`, a leaf a `ReadOnlyRef`. -/
def viewGetattr (entries : List (String × DictVal)) (name : String) :
    Except PyError ViewRead :=
  match alistLookup entries name with
  | none => .error (.attributeErr name)
  | some (.nestedRec es) => .ok (.subView es)
  | some (.leafVal n) => .ok (.roRef n)

/-- Embedding of `ReadOnlyView.__getitem__` (`view.py` lines 69-83): same logic, but an
absent key raises `KeyError` naming the missing key. -/
def viewGetitem (entries : List (String × DictVal)) (key : String) :
    Except PyError ViewRead :=
  match alistLookup entries key with
  | none => .error (.keyErr key)
  | some (.nestedRec es) => .ok (.subView es)
  | some (.leafVal n) => .ok (.roRef n)

/-! ## Structural type inference (`type_test.py`, lines 99-184)

Python runtime values as far as `_generate_cache_key` and
`infer_schema_from_data` inspect them.  `type(obj).__name__` of a leaf is
its type-name string.  Python `set` iteration order inside
`_generate_cache_key` is deterministic within a process for an identical
insertion sequence; it is modelled as first-occurrence order, which yields
identical keys for identical structure sequences — all the cache-key
comparisons here need. -/

/-- A Python value for inference purposes. -/
inductive PyVal where
  | vint (n : Int)
  | vstr (s : String)
  | vbool (b : Bool)
  | vnone
  | vdict (entries : List (String × PyVal))
  | vlist (elems : List PyVal)

/-- Python `type(obj).__name__` for non-dict, non-list values. -/
def pyTypeName : PyVal → String
  | .vint _ => "int"
  | .vstr _ => "str"
  | .vbool _ => "bool"
  | .vnone => "NoneType"
  | .vdict _ => "dict"
  | .vlist _ => "list"

/-- Keep only the first occurrence of each string: the deterministic model
of building and iterating the Python `set(structures)` from an insertion
sequence. -/
def dedupFirst (seen : List String) : List String → List String
  | [] => []
  | s :: rest =>
      if s ∈ seen then dedupFirst seen rest
      else s :: dedupFirst (seen ++ [s]) rest

/-- Lexicographic comparison of strings by code point, as Python compares
`str` values (computably, over the character lists). -/
def pyStrLeChars : List Char → List Char → Bool
  | [], _ => true
  | _ :: _, [] => false
  | a :: as, b :: bs =>
      if a.toNat < b.toNat then true
      else if b.toNat < a.toNat then false
      else pyStrLeChars as bs

/-- Python string `<=`. -/
def pyStrLe (s t : String) : Bool :=
  pyStrLeChars s.data t.data

/-- Insert one `(key, structure)` pair into a list sorted by key
(ascending, as Python `sorted` over the unique dict keys). -/
def insertByKey (p : String × String) :
    List (String × String) → List (String × String)
  | [] => [p]
  | q :: rest => if pyStrLe p.1 q.1 then p :: q :: rest else q :: insertByKey p rest

/-- Sort `(key, structure)` pairs by key, the effect of
`sorted(obj.items())` for a dict (keys are unique, so the value part never
takes part in the comparison). -/
def sortByKey : List (String × String) → List (String × String)
  | [] => []
  | p :: rest => insertByKey p (sortByKey rest)

mutual

/-- Embedding of `get_structure` inside `_generate_cache_key` (`type_test.py` lines
143-158): a dict renders as `dict(k1:s1,...)` over its key-sorted items, a
non-empty list as `list(...)` over the deduplicated structures of its first
three elements, an empty list as `list(empty)`, and anything else as its
runtime type name. -/
def getStructure : PyVal → String
  | .vdict entries =>
      "dict(" ++
        String.intercalate ","
          ((sortByKey (structOfEntries entries)).map fun p => p.1 ++ ":" ++ p.2)
        ++ ")"
  | .vlist [] => "list(empty)"
  | .vlist (e :: rest) =>
      "list(" ++
        String.intercalate "," (dedupFirst [] ((structOfList (e :: rest)).take 3))
        ++ ")"
  | v => pyTypeName v
termination_by structural v => v

/-- Structures of a dict's items, in dict order (sorted afterwards). -/
def structOfEntries : List (String × PyVal) → List (String × String)
  | [] => []
  | (k, v) :: rest => (k, getStructure v) :: structOfEntries rest
termination_by structural l => l

/-- Structures of a list's elements in order (the source samples
`min(3, len)` elements, i.e. `take 3` of this). -/
def structOfList : List PyVal → List String
  | [] => []
  | v :: rest => getStructure v :: structOfList rest
termination_by structural l => l

end

/-- Embedding of `_generate_cache_key(data)` (`type_test.py` lines 141-160) for the
top-level dict `data`. -/
def generateCacheKey (entries : List (String × PyVal)) : String :=
  getStructure (.vdict entries)

/-- Python `str.capitalize()`: first character upper-cased, the rest
lower-cased (used for the nested type name `{type_name}_{key.capitalize()}`). -/
def pyCapitalize (s : String) : String :=
  s.toLower.capitalize

/-- The inferred type of one field in a descriptor. -/
inductive FieldTy where
  /-- a leaf value's own runtime type. -/
  | primTy (typeName : String)
  /-- an empty nested dict: `Dict[str, Any]`. -/
  | dictStrAny
  /-- Modelled from the spec: the element-type marker a list infers to
  (`_infer_list_type` is referenced by `_infer_field_type` but its body is
  not in `src/`; per the spec a list infers an element-type marker from up
  to its first few elements, an empty list inferring to list-of-anything). -/
  | listMarker (elemTy : String)
  /-- a non-empty nested dict: the recursively inferred `TypedDict`,
  referenced by descriptor instance id. -/
  | schemaRef (tid : Nat)

/-- The mutable state threaded through one inference: the `_schema_cache`
dict (structural key to descriptor instance id) and the allocation counter
modelling Python object identity of `TypedDict(...)` results (each call to
`TypedDict` creates a distinct class object). -/
structure TDState where
  cache : List (String × Nat)
  nextId : Nat
deriving DecidableEq, Repr

/-- Modelled from the spec: `_infer_list_type` (missing from `src/`; see
`FieldTy.listMarker`) — sample the first non-empty prefix for an element
type name, an empty list inferring to anything. -/
def inferListTy (elems : List PyVal) : FieldTy :=
  match elems with
  | [] => .listMarker "Any"
  | e :: _ => .listMarker (pyTypeName e)

mutual

/-- The `for key, value in data.items()` loop of `infer_schema_from_data`
(`type_test.py` lines 131-132) building the annotations while threading
the shared cache and the allocator. -/
def inferFieldsAux (entries : List (String × PyVal)) (typeName : String)
    (st : TDState) : List (String × FieldTy) × TDState :=
  match entries with
  | [] => ([], st)
  | (k, v) :: rest =>
      let r1 := inferFieldTy v typeName k st
      let r2 := inferFieldsAux rest typeName r1.2
      ((k, r1.1) :: r2.1, r2.2)
termination_by structural entries

/-- Embedding of `_infer_field_type(value, type_name, key, schema_cache)`
(`type_test.py` lines 163-184): an empty dict is `Dict[str, Any]`; a
non-empty dict is recursively inferred by `infer_schema_from_data` under
the derived name `{type_name}_{key.capitalize()}` with the shared cache —
that nested call's body (cache-key lookup, field inference, `TypedDict`
allocation, cache insertion: `type_test.py` lines 124-138) is written out
inline here so the recursion is structural; `inferFieldTy_vdict_eq` below
proves it equal to `inferSchemaAux` applied to the nested entries.  A list
goes to the list-type inference; anything else is its own runtime type. -/
def inferFieldTy (v : PyVal) (typeName : String) (key : String)
    (st : TDState) : FieldTy × TDState :=
  match v with
  | .vdict [] => (.dictStrAny, st)
  | .vdict (e :: es) =>
      let cacheKey := generateCacheKey (e :: es)
      match alistLookup st.cache cacheKey with
      | some tid => (.schemaRef tid, st)
      | none =>
          let st1 := (inferFieldsAux (e :: es)
            (typeName ++ "_" ++ pyCapitalize key) st).2
          (.schemaRef st1.nextId,
           { cache := dictInsert st1.cache cacheKey st1.nextId
             nextId := st1.nextId + 1 })
  | .vlist es => (inferListTy es, st)
  | other => (.primTy (pyTypeName other), st)
termination_by structural v

end

/-- Embedding of `infer_schema_from_data(data, type_name, _schema_cache)`
(`type_test.py` lines 99-138) with an explicit cache: compute the
structural cache key; on a hit return the cached descriptor instance with
the state unchanged; on a miss infer every field (threading the same cache
through nested inferences), create a fresh `TypedDict` instance, record it
under the key, and return it. -/
def inferSchemaAux (entries : List (String × PyVal)) (typeName : String)
    (st : TDState) : Nat × TDState :=
  let key := generateCacheKey entries
  match alistLookup st.cache key with
  | some tid => (tid, st)
  | none =>
      let st1 := (inferFieldsAux entries typeName st).2
      let tid := st1.nextId
      (tid, { cache := dictInsert st1.cache key tid, nextId := st1.nextId + 1 })

/-- The public entry point with its Python default `_schema_cache = None`
(`type_test.py` lines 99-127): a call that does not supply a cache starts
from a brand-new empty cache dict.  The allocation counter is global
(object identity persists across calls). -/
def inferSchemaFromData (entries : List (String × PyVal)) (typeName : String)
    (cacheArg : Option (List (String × Nat))) (nextId : Nat) : Nat × TDState :=
  inferSchemaAux entries typeName { cache := cacheArg.getD [], nextId := nextId }

/-! ## Theorems -/

/-! ### C7: execution-context save/restore -/

/-- C7: for every invocation of an active effect (synchronous or
asynchronous), the current-effect slot holds the invoked effect for the
duration of the wrapped function's execution — the function runs in the
slot state `some e` — and the slot is restored to its prior value when the
invocation ends, both when the wrapped function returns normally and when
it raises. -/
theorem c7_context_save_restore (ρ : Type) (e : Nat)
    (f : EffectSlot → EffectSlot × Outcome ρ) (slot : EffectSlot)
    (isActive : Bool) (hact : isActive = true) :
    callEffect isActive e f slot = (slot, some (f (some e)).2) ∧
    runSyncEffect e f slot = (slot, (f (some e)).2) ∧
    runAsyncEffect e f slot = (slot, (f (some e)).2) ∧
    (∀ v, (f (some e)).2 = Outcome.normal v →
      callEffect isActive e f slot = (slot, some (Outcome.normal v))) ∧
    (∀ msg, (f (some e)).2 = Outcome.raised msg →
      callEffect isActive e f slot = (slot, some (Outcome.raised msg))) := by
  subst hact
  refine ⟨rfl, rfl, rfl, ?_, ?_⟩
  · intro v hv
    simp [callEffect, runSyncEffect, hv]
  · intro msg hmsg
    simp [callEffect, runSyncEffect, hmsg]

/-- Witness for C7 at a concrete invocation: effect `0`, a function that
returns `37` normally, prior slot `some 5`. -/
theorem c7_context_save_restore_witness :
    callEffect true 0 (fun s => (s, Outcome.normal (37 : Nat))) (some 5) =
      (some 5, some (Outcome.normal 37)) :=
  (c7_context_save_restore Nat 0 (fun s => (s, Outcome.normal 37)) (some 5)
    true rfl).1

/-! ### C2: change detection and notification delivery (code bug)

Claimed: an unequal write notifies each currently-subscribed subscriber
exactly once with `(v, x)` supplied positionally.  The equal-write no-op
half holds, and so does exactly-once inline delivery to synchronous
subscribers; but for asynchronous subscribers under a running event loop
the queued lambda of `ref.py` line 80 late-binds the loop variable
`callback`, so every queued call goes to the snapshot's last-iterated
subscriber.  With two asynchronous subscribers the first is never notified
and the last is notified twice; with an asynchronous subscriber followed by
a synchronous one, the synchronous one is called twice (once inline, once
late-bound) and the asynchronous one never.  The per-iteration intent is
visible in the same source line (it writes `callback(new_value, old_value)`
for the subscriber being iterated, and the `RuntimeError` handler names
`callback.__name__`), and the spec states that the notification schedules
that subscriber's asynchronous call — the late binding is a slip. -/

/-- C2 (code bug, evaluated at the failing input): writing `42` over `42`
is a no-op with zero notifications and writing `43` stores it (the halves
of the claim the code satisfies, as is exactly-once `(43, 42)` delivery to
synchronous-only subscriber sets); but with two asynchronous subscribers
`1, 2` under a running loop, subscriber `1` receives zero deliveries while
subscriber `2` receives two — and with the snapshot `[async 1, sync 0]`,
`0` is delivered to twice and `1` never — refuting exactly-once delivery
per subscriber. -/
theorem c2_async_notification_late_binding :
    setValue true (RefState.mk (42 : Nat) [.coro 1, .coro 2]) 42 =
      (RefState.mk (42 : Nat) [.coro 1, .coro 2], []) ∧
    (setValue true (RefState.mk (42 : Nat) [.coro 1, .coro 2]) 43).1.value = 43 ∧
    deliveredPayloads
      (setValue true (RefState.mk (42 : Nat) [.coro 1, .coro 2]) 43).2 1 = [] ∧
    deliveredPayloads
      (setValue true (RefState.mk (42 : Nat) [.coro 1, .coro 2]) 43).2 2 =
      [(43, 42), (43, 42)] ∧
    deliveredPayloads
      (setValue true (RefState.mk (42 : Nat) [.coro 1, .sync 0 false]) 43).2 0 =
      [(43, 42), (43, 42)] ∧
    deliveredPayloads
      (setValue true (RefState.mk (42 : Nat) [.coro 1, .sync 0 false]) 43).2 1 = [] ∧
    deliveredPayloads
      (setValue true (RefState.mk (42 : Nat) [.sync 0 false, .sync 1 false]) 43).2 0 =
      [(43, 42)] ∧
    deliveredPayloads
      (setValue true (RefState.mk (42 : Nat) [.sync 0 false, .sync 1 false]) 43).2 1 =
      [(43, 42)] := by
  decide

/-! ### C9: asynchronous-subscriber isolation -/

/-- Membership characterisation of the setter's loop phase: an event occurs
in it iff some subscriber's iteration emits it. -/
theorem mem_notifyLoop_iff (loopRunning : Bool) (oldV newV : α)
    (subs : List (Subscriber α)) (ev : NotifyEvent α) :
    ev ∈ notifyLoop loopRunning oldV newV subs ↔
      ∃ s ∈ subs, ev ∈ notifyOne loopRunning oldV newV s := by
  induction subs with
  | nil => simp [notifyLoop]
  | cons t rest ih => simp [notifyLoop, ih]

/-- With no running loop, nothing is queued and nothing is drained: the
episode is exactly the setter's loop. -/
theorem notifyAll_no_loop (oldV newV : α) (subs : List (Subscriber α)) :
    notifyAll false oldV newV subs = notifyLoop false oldV newV subs := by
  simp [notifyAll, drainQueue]

/-- C9: on a value change with an asynchronous subscriber present and no
event loop running, that subscriber is never awaited inline (no inline
invocation, no deferred call, and no lambda is even queued), the failure is
reported as a diagnostic only, the new value remains stored, and every
synchronous subscriber is still notified inline.  (The setter itself is a
total function here because the source wraps the whole dispatch of each
subscriber in exception handlers — nothing propagates to the writer.) -/
theorem c9_async_no_loop_diagnostic_only (α : Type) [DecidableEq α]
    (r : RefState α) (v : α) (j : Nat)
    (hmem : Subscriber.coro j ∈ r.subscribers)
    (hnd : (r.subscribers.map Subscriber.subId).Nodup)
    (hne : v ≠ r.value) :
    (setValue false r v).1.value = v ∧
    NotifyEvent.schedulingError j ∈ (setValue false r v).2 ∧
    (∀ n o : α, NotifyEvent.invoked j n o ∉ (setValue false r v).2 ∧
      NotifyEvent.deferredCall j n o ∉ (setValue false r v).2) ∧
    NotifyEvent.thunkQueued ∉ (setValue false r v).2 ∧
    (∀ k raises, Subscriber.sync k raises ∈ r.subscribers →
      NotifyEvent.invoked k v r.value ∈ (setValue false r v).2) := by
  have hif : ¬ (r.value = v) := fun h => hne h.symm
  have hinj := List.inj_on_of_nodup_map hnd
  refine ⟨by simp [setValue, hif], ?_, ?_, ?_, ?_⟩
  · simp only [setValue, if_neg hif, notifyAll_no_loop]
    exact (mem_notifyLoop_iff false r.value v r.subscribers _).mpr
      ⟨Subscriber.coro j, hmem, by simp [notifyOne]⟩
  · intro n o
    constructor
    · intro hin
      simp only [setValue, if_neg hif, notifyAll_no_loop] at hin
      rcases (mem_notifyLoop_iff false r.value v r.subscribers _).mp hin
        with ⟨s, hs, hev⟩
      cases s with
      | sync k raises =>
          have hkj : k = j := by
            cases raises <;> simp [notifyOne] at hev <;> exact hev.1.symm
          have : Subscriber.sync k raises = Subscriber.coro j :=
            hinj hs hmem (by simp [Subscriber.subId, hkj])
          cases this
      | coro k => simp [notifyOne] at hev
    · intro hin
      simp only [setValue, if_neg hif, notifyAll_no_loop] at hin
      rcases (mem_notifyLoop_iff false r.value v r.subscribers _).mp hin
        with ⟨s, hs, hev⟩
      cases s with
      | sync k raises => cases raises <;> simp [notifyOne] at hev
      | coro k => simp [notifyOne] at hev
  · intro hin
    simp only [setValue, if_neg hif, notifyAll_no_loop] at hin
    rcases (mem_notifyLoop_iff false r.value v r.subscribers _).mp hin
      with ⟨s, hs, hev⟩
    cases s with
    | sync k raises => cases raises <;> simp [notifyOne] at hev
    | coro k => simp [notifyOne] at hev
  · intro k raises hsk
    simp only [setValue, if_neg hif, notifyAll_no_loop]
    exact (mem_notifyLoop_iff false r.value v r.subscribers _).mpr
      ⟨Subscriber.sync k raises, hsk, by cases raises <;> simp [notifyOne]⟩

/-- Witness for C9: a ref holding `10` with an async subscriber (id `1`)
and a sync one (id `0`), no loop; writing `11` stores the value, logs a
scheduling diagnostic for `1`, never invokes `1` inline or deferred, queues
nothing, and still invokes `0`. -/
theorem c9_async_no_loop_diagnostic_only_witness :
    (setValue false (RefState.mk (10 : Nat) [.coro 1, .sync 0 false]) 11).1.value = 11 ∧
    NotifyEvent.schedulingError 1 ∈
      (setValue false (RefState.mk (10 : Nat) [.coro 1, .sync 0 false]) 11).2 ∧
    (∀ n o : Nat,
      NotifyEvent.invoked 1 n o ∉
        (setValue false (RefState.mk (10 : Nat) [.coro 1, .sync 0 false]) 11).2 ∧
      NotifyEvent.deferredCall 1 n o ∉
        (setValue false (RefState.mk (10 : Nat) [.coro 1, .sync 0 false]) 11).2) ∧
    NotifyEvent.thunkQueued ∉
      (setValue false (RefState.mk (10 : Nat) [.coro 1, .sync 0 false]) 11).2 ∧
    (∀ k raises, Subscriber.sync k raises ∈
        (RefState.mk (10 : Nat) [.coro 1, .sync 0 false]).subscribers →
      NotifyEvent.invoked k 11 10 ∈
        (setValue false (RefState.mk (10 : Nat) [.coro 1, .sync 0 false]) 11).2) :=
  c9_async_no_loop_diagnostic_only Nat
    (RefState.mk 10 [.coro 1, .sync 0 false]) 11 1
    (by decide) (by decide) (by decide)

/-! ### C1: dependency collection is NOT per-run (code bug)

Claimed: once a run of the effect no longer reads container `B`, later
changes to `B` no longer trigger the effect.  In the code, `Ref.value` only
ever adds the current effect to `_subscribers` and nothing removes it
between runs, so the effect accumulated as `B`'s subscriber during the
first run is still notified — and re-invoked — by every later change to
`B`.  The repository's own example (`examples/effect_basics.py` lines
98-100) documents the claimed behaviour ("age is no longer a dependency"),
which the implementation contradicts. -/

/-- C1 (code bug, evaluated at the failing input): in the `show_age`/`age`
scenario, after the run triggered by `A := 0` in which `B` was not read
(`condW2`, two runs so far), the effect is still registered as `B`'s
subscriber, and writing `B := 99` re-invokes the effect a third time —
while a further change to `A` also re-invokes it (the half of the claim
the code does satisfy). -/
theorem c1_dependency_collection_not_per_run :
    condW1.runs = [0] ∧
    condW2.runs = [0, 0] ∧
    condW2.subs 1 = [0] ∧
    condW3.runs = [0, 0, 0] ∧
    (writeRef condBodies condW2 0 1).runs = [0, 0, 0] :=
  ⟨rfl, rfl, rfl, rfl, rfl⟩

/-! ### C8: stop is terminal -/

/-- A tracked read changes neither the active flags nor the run log. -/
theorem readRef_preserves (w : RWorld) (r : Nat) :
    (readRef w r).isActive = w.isActive ∧ (readRef w r).runs = w.runs := by
  cases h : w.ctx <;> simp [readRef, h]

/-- Folding tracked reads changes neither the active flags nor the run
log. -/
theorem foldl_readRef_preserves (l : List Nat) (w : RWorld) :
    (l.foldl readRef w).isActive = w.isActive ∧
      (l.foldl readRef w).runs = w.runs := by
  induction l generalizing w with
  | nil => exact ⟨rfl, rfl⟩
  | cons r rest ih =>
      rw [List.foldl_cons]
      exact ⟨((ih (readRef w r)).1).trans (readRef_preserves w r).1,
        ((ih (readRef w r)).2).trans (readRef_preserves w r).2⟩

/-- One body execution appends exactly its own id to the run log and leaves
the active flags unchanged. -/
theorem runEffectBody_preserves (bodies : Nat → (Nat → Nat) → List Nat)
    (w : RWorld) (e : Nat) :
    (runEffectBody bodies w e).isActive = w.isActive ∧
      (runEffectBody bodies w e).runs = w.runs ++ [e] := by
  unfold runEffectBody
  exact ⟨(foldl_readRef_preserves _ _).1, (foldl_readRef_preserves _ _).2⟩

/-- Invoking any effect keeps a stopped effect stopped and never executes
the stopped effect's body. -/
theorem invokeEffect_stopped_invariant (bodies : Nat → (Nat → Nat) → List Nat)
    (w : RWorld) (e e2 : Nat) (h : w.isActive e = false) :
    (invokeEffect bodies w e2).isActive e = false ∧
      List.count e (invokeEffect bodies w e2).runs = List.count e w.runs := by
  unfold invokeEffect
  by_cases hact : w.isActive e2
  · have hne : e2 ≠ e := fun he => by rw [he, h] at hact; cases hact
    rw [if_pos hact, (runEffectBody_preserves bodies w e2).1,
      (runEffectBody_preserves bodies w e2).2, List.count_append]
    refine ⟨h, ?_⟩
    have : List.count e [e2] = 0 :=
      List.count_eq_zero.mpr (fun hmem => hne (List.mem_singleton.mp hmem).symm)
    omega
  · rw [if_neg hact]
    exact ⟨h, rfl⟩

/-- The notification fold of a write keeps a stopped effect stopped and
never executes its body. -/
theorem foldl_invokeEffect_stopped_invariant
    (bodies : Nat → (Nat → Nat) → List Nat) (l : List Nat) (w : RWorld)
    (e : Nat) (h : w.isActive e = false) :
    (l.foldl (invokeEffect bodies) w).isActive e = false ∧
      List.count e (l.foldl (invokeEffect bodies) w).runs =
        List.count e w.runs := by
  induction l generalizing w with
  | nil => exact ⟨h, rfl⟩
  | cons e2 rest ih =>
      rw [List.foldl_cons]
      have h1 := invokeEffect_stopped_invariant bodies w e e2 h
      have h2 := ih (invokeEffect bodies w e2) h1.1
      exact ⟨h2.1, h2.2.trans h1.2⟩

/-- Any single operation keeps a stopped effect stopped and never executes
its body. -/
theorem applyROp_stopped_invariant (bodies : Nat → (Nat → Nat) → List Nat)
    (w : RWorld) (e : Nat) (op : ROp) (h : w.isActive e = false) :
    (applyROp bodies w op).isActive e = false ∧
      List.count e (applyROp bodies w op).runs = List.count e w.runs := by
  cases op with
  | invoke e2 => exact invokeEffect_stopped_invariant bodies w e e2 h
  | write r v =>
      show (writeRef bodies w r v).isActive e = false ∧
        List.count e (writeRef bodies w r v).runs = List.count e w.runs
      unfold writeRef
      by_cases hv : w.vals r = v
      · rw [if_pos hv]; exact ⟨h, rfl⟩
      · rw [if_neg hv]
        exact foldl_invokeEffect_stopped_invariant bodies (w.subs r) _ e h
  | stopIt e2 =>
      unfold applyROp stopEffect
      refine ⟨?_, rfl⟩
      by_cases h2 : e = e2 <;> simp [h2, h]

/-- Any operation sequence keeps a stopped effect stopped and never
executes its body. -/
theorem applyROps_stopped_invariant (bodies : Nat → (Nat → Nat) → List Nat)
    (ops : List ROp) (w : RWorld) (e : Nat) (h : w.isActive e = false) :
    (applyROps bodies w ops).isActive e = false ∧
      List.count e (applyROps bodies w ops).runs = List.count e w.runs := by
  induction ops generalizing w with
  | nil => exact ⟨h, rfl⟩
  | cons op rest ih =>
      have h1 := applyROp_stopped_invariant bodies w e op h
      have h2 := ih (applyROp bodies w op) h1.1
      exact ⟨h2.1, h2.2.trans h1.2⟩

/-- Stopping an already-stopped effect changes nothing (and, being a total
operation, raises no error). -/
theorem stopEffect_idem (w : RWorld) (e : Nat) (h : w.isActive e = false) :
    stopEffect w e = w := by
  cases w with
  | mk vals subs isActive ctx runs =>
      simp only [stopEffect, RWorld.mk.injEq, and_true, true_and]
      funext e2
      by_cases h2 : e2 = e
      · subst h2; simpa using h.symm
      · simp [h2]

/-- C8: after `stop()` the effect stays inactive under every subsequent
operation sequence — manual invocations and dependency-triggered
notifications alike never execute its body again (its run count never
grows) — and stopping it again is a no-op that raises no error. -/
theorem c8_stop_is_terminal (bodies : Nat → (Nat → Nat) → List Nat)
    (w : RWorld) (e : Nat) (ops : List ROp) :
    (applyROps bodies (stopEffect w e) ops).isActive e = false ∧
    List.count e (applyROps bodies (stopEffect w e) ops).runs =
      List.count e w.runs ∧
    stopEffect (applyROps bodies (stopEffect w e) ops) e =
      applyROps bodies (stopEffect w e) ops := by
  have hstop : (stopEffect w e).isActive e = false := by simp [stopEffect]
  have hinv := applyROps_stopped_invariant bodies ops (stopEffect w e) e hstop
  refine ⟨hinv.1, ?_, stopEffect_idem _ e hinv.1⟩
  have : (stopEffect w e).runs = w.runs := rfl
  rw [hinv.2, this]

/-! ### C4: read-miss error kinds through a view -/

/-- C4: for a key absent from the wrapped record, an attribute-style read
raises an attribute-not-found error naming the missing attribute, an
item-style read raises a key-not-found error naming the missing key, and
the two error kinds are distinct. -/
theorem c4_view_miss_error_kinds (entries : List (String × DictVal))
    (k : String) (habs : alistLookup entries k = none) :
    viewGetattr entries k = .error (.attributeErr k) ∧
    viewGetitem entries k = .error (.keyErr k) ∧
    ∀ m1 m2 : String, PyError.attributeErr m1 ≠ PyError.keyErr m2 := by
  refine ⟨?_, ?_, fun m1 m2 h => by cases h⟩
  · unfold viewGetattr
    rw [habs]
  · unfold viewGetitem
    rw [habs]

/-- Witness for C4: a record with only the key `name`, read at the absent
key `missing`. -/
theorem c4_view_miss_error_kinds_witness :
    viewGetattr [("name", DictVal.leafVal 1)] "missing" =
      .error (.attributeErr "missing") ∧
    viewGetitem [("name", DictVal.leafVal 1)] "missing" =
      .error (.keyErr "missing") ∧
    ∀ m1 m2 : String, PyError.attributeErr m1 ≠ PyError.keyErr m2 :=
  c4_view_miss_error_kinds [("name", DictVal.leafVal 1)] "missing" rfl

/-! ### C5: the four invocation shapes of a view -/

/-- A binding just written by dict assignment is found by lookup. -/
theorem alistLookup_dictInsert_self (t : List (String × β)) (k : String)
    (v : β) : alistLookup (dictInsert t k v) k = some v := by
  induction t with
  | nil => simp [dictInsert, alistLookup]
  | cons p rest ih =>
      by_cases h : p.1 = k
      · simp [dictInsert, h, alistLookup]
      · cases p
        simp_all [dictInsert, alistLookup, h]

/-- C5: calling a view with a named function registers it under its own
name and returns it unchanged; with an anonymous function it raises a
registration error and registers nothing; with a string it returns an
inner registrar that registers any function — named or anonymous — under
the supplied name and returns it unchanged; with any other single-argument
shape it raises a usage error. -/
theorem c5_view_invocation_shapes (h : ViewHeap) (v : ReadOnlyView)
    (f g : PyFunc) (s : String)
    (hf : f.fname ≠ "<lambda>") (hg : g.fname = "<lambda>") :
    (viewCall h v (.fn f)).2 = .fnRes f ∧
    alistLookup ((viewCall h v (.fn f)).1.tables v.tableId) f.fname =
      some f.fid ∧
    (viewCall h v (.fn g)).1 = h ∧
    (∃ msg, (viewCall h v (.fn g)).2 = .raised (.typeMismatch msg)) ∧
    viewCall h v (.strArg s) = (h, .registrar s) ∧
    (registrarApply h v s f).2 = f ∧
    alistLookup ((registrarApply h v s f).1.tables v.tableId) s =
      some f.fid ∧
    (registrarApply h v s g).2 = g ∧
    alistLookup ((registrarApply h v s g).1.tables v.tableId) s =
      some g.fid ∧
    (viewCall h v .otherArg).1 = h ∧
    (∃ msg, (viewCall h v .otherArg).2 = .raised (.typeMismatch msg)) := by
  refine ⟨?_, ?_, ?_, ?_, rfl, rfl, ?_, rfl, ?_, rfl, ⟨_, rfl⟩⟩
  · simp [viewCall, hf]
  · simp [viewCall, hf, setTable, alistLookup_dictInsert_self]
  · simp [viewCall, hg]
  · exact ⟨"anonymous function needs an explicit action name",
      by simp [viewCall, hg]⟩
  · simp [registrarApply, setTable, alistLookup_dictInsert_self]
  · simp [registrarApply, setTable, alistLookup_dictInsert_self]

/-- Witness for C5: the named function `save` (id 7) and an anonymous
function (id 8) against a view whose action dict is table 0. -/
theorem c5_view_invocation_shapes_witness :
    (viewCall ⟨fun _ => [], 1⟩ ⟨0, 0⟩ (.fn ⟨7, "save"⟩)).2 =
      .fnRes ⟨7, "save"⟩ ∧
    alistLookup
      ((viewCall ⟨fun _ => [], 1⟩ ⟨0, 0⟩ (.fn ⟨7, "save"⟩)).1.tables 0)
      "save" = some 7 ∧
    (viewCall ⟨fun _ => [], 1⟩ ⟨0, 0⟩ (.fn ⟨8, "<lambda>"⟩)).1 =
      ⟨fun _ => [], 1⟩ ∧
    (∃ msg, (viewCall ⟨fun _ => [], 1⟩ ⟨0, 0⟩ (.fn ⟨8, "<lambda>"⟩)).2 =
      .raised (.typeMismatch msg)) ∧
    viewCall ⟨fun _ => [], 1⟩ ⟨0, 0⟩ (.strArg "act") =
      (⟨fun _ => [], 1⟩, .registrar "act") ∧
    (registrarApply ⟨fun _ => [], 1⟩ ⟨0, 0⟩ "act" ⟨7, "save"⟩).2 =
      ⟨7, "save"⟩ ∧
    alistLookup
      ((registrarApply ⟨fun _ => [], 1⟩ ⟨0, 0⟩ "act" ⟨7, "save"⟩).1.tables 0)
      "act" = some 7 ∧
    (registrarApply ⟨fun _ => [], 1⟩ ⟨0, 0⟩ "act" ⟨8, "<lambda>"⟩).2 =
      ⟨8, "<lambda>"⟩ ∧
    alistLookup
      ((registrarApply ⟨fun _ => [], 1⟩ ⟨0, 0⟩ "act" ⟨8, "<lambda>"⟩).1.tables 0)
      "act" = some 8 ∧
    (viewCall ⟨fun _ => [], 1⟩ ⟨0, 0⟩ .otherArg).1 = ⟨fun _ => [], 1⟩ ∧
    (∃ msg, (viewCall ⟨fun _ => [], 1⟩ ⟨0, 0⟩ .otherArg).2 =
      .raised (.typeMismatch msg)) :=
  c5_view_invocation_shapes ⟨fun _ => [], 1⟩ ⟨0, 0⟩ ⟨7, "save"⟩
    ⟨8, "<lambda>"⟩ "act" (by decide) rfl

/-! ### C6: action-table isolation between views -/

/-- C6: two `ReadOnlyView` instances over the identical record get distinct
freshly-allocated action tables; registering an action through the first
leaves the second's table unchanged (still empty), and the second view's
action executor raises an attribute-not-found error for the registered
name. -/
theorem c6_action_table_isolation (h : ViewHeap) (recId : Nat) (f : PyFunc)
    (hf : f.fname ≠ "<lambda>") :
    (mkReadOnlyView h recId).2.recId =
      (mkReadOnlyView (mkReadOnlyView h recId).1 recId).2.recId ∧
    (mkReadOnlyView h recId).2.tableId ≠
      (mkReadOnlyView (mkReadOnlyView h recId).1 recId).2.tableId ∧
    ((viewCall (mkReadOnlyView (mkReadOnlyView h recId).1 recId).1
        (mkReadOnlyView h recId).2 (.fn f)).1.tables
      (mkReadOnlyView (mkReadOnlyView h recId).1 recId).2.tableId) = [] ∧
    executorGetattr
      (viewCall (mkReadOnlyView (mkReadOnlyView h recId).1 recId).1
        (mkReadOnlyView h recId).2 (.fn f)).1
      { tableId :=
          (mkReadOnlyView (mkReadOnlyView h recId).1 recId).2.tableId }
      f.fname = .error (.attributeErr f.fname) := by
  have hne : h.fresh ≠ h.fresh + 1 := Nat.ne_of_lt (Nat.lt_succ_self _)
  have htab : (viewCall (mkReadOnlyView (mkReadOnlyView h recId).1 recId).1
      (mkReadOnlyView h recId).2 (.fn f)).1.tables (h.fresh + 1) = [] := by
    simp [mkReadOnlyView, viewCall, hf, setTable, hne]
  refine ⟨rfl, by simp [mkReadOnlyView], htab, ?_⟩
  unfold executorGetattr
  simp only [mkReadOnlyView] at htab ⊢
  rw [htab]
  rfl

/-- Witness for C6 at a concrete heap (empty, next table id 0), record id
5, and the named function `act` (id 3). -/
theorem c6_action_table_isolation_witness :
    (mkReadOnlyView ⟨fun _ => [], 0⟩ 5).2.recId =
      (mkReadOnlyView (mkReadOnlyView ⟨fun _ => [], 0⟩ 5).1 5).2.recId ∧
    (mkReadOnlyView ⟨fun _ => [], 0⟩ 5).2.tableId ≠
      (mkReadOnlyView (mkReadOnlyView ⟨fun _ => [], 0⟩ 5).1 5).2.tableId ∧
    ((viewCall (mkReadOnlyView (mkReadOnlyView ⟨fun _ => [], 0⟩ 5).1 5).1
        (mkReadOnlyView ⟨fun _ => [], 0⟩ 5).2 (.fn ⟨3, "act"⟩)).1.tables
      (mkReadOnlyView (mkReadOnlyView ⟨fun _ => [], 0⟩ 5).1 5).2.tableId) = [] ∧
    executorGetattr
      (viewCall (mkReadOnlyView (mkReadOnlyView ⟨fun _ => [], 0⟩ 5).1 5).1
        (mkReadOnlyView ⟨fun _ => [], 0⟩ 5).2 (.fn ⟨3, "act"⟩)).1
      { tableId :=
          (mkReadOnlyView (mkReadOnlyView ⟨fun _ => [], 0⟩ 5).1 5).2.tableId }
      "act" = .error (.attributeErr "act") :=
  c6_action_table_isolation ⟨fun _ => [], 0⟩ 5 ⟨3, "act"⟩ (by decide)

/-! ### C10: the executor aliases the view's live action table -/

/-- C10: an `ActionExecutor` obtained from a view before any registration
holds the view's own action dict (same table id, not a copy); after a named
function is later registered through the view, that same pre-existing
executor resolves the name to the registered function. -/
theorem c10_executor_aliases_live_table (h : ViewHeap) (recId : Nat)
    (f : PyFunc) (hf : f.fname ≠ "<lambda>") :
    (viewCall (mkReadOnlyView h recId).1 (mkReadOnlyView h recId).2
        .noArg).2 =
      .executor { tableId := (mkReadOnlyView h recId).2.tableId } ∧
    executorGetattr
      (viewCall (mkReadOnlyView h recId).1 (mkReadOnlyView h recId).2
        .noArg).1
      { tableId := (mkReadOnlyView h recId).2.tableId } f.fname =
      .error (.attributeErr f.fname) ∧
    executorGetattr
      (viewCall
        (viewCall (mkReadOnlyView h recId).1 (mkReadOnlyView h recId).2
          .noArg).1
        (mkReadOnlyView h recId).2 (.fn f)).1
      { tableId := (mkReadOnlyView h recId).2.tableId } f.fname =
      .ok f.fid := by
  refine ⟨rfl, ?_, ?_⟩
  · unfold executorGetattr
    simp [mkReadOnlyView, viewCall, alistLookup]
  · unfold executorGetattr
    simp [mkReadOnlyView, viewCall, hf, setTable,
      alistLookup_dictInsert_self]

/-- Witness for C10: empty heap, record id 2, named function `inc`
(id 4) — the executor obtained before registration resolves `inc`
afterwards. -/
theorem c10_executor_aliases_live_table_witness :
    (viewCall (mkReadOnlyView ⟨fun _ => [], 0⟩ 2).1
        (mkReadOnlyView ⟨fun _ => [], 0⟩ 2).2 .noArg).2 =
      .executor { tableId := (mkReadOnlyView ⟨fun _ => [], 0⟩ 2).2.tableId } ∧
    executorGetattr
      (viewCall (mkReadOnlyView ⟨fun _ => [], 0⟩ 2).1
        (mkReadOnlyView ⟨fun _ => [], 0⟩ 2).2 .noArg).1
      { tableId := (mkReadOnlyView ⟨fun _ => [], 0⟩ 2).2.tableId } "inc" =
      .error (.attributeErr "inc") ∧
    executorGetattr
      (viewCall
        (viewCall (mkReadOnlyView ⟨fun _ => [], 0⟩ 2).1
          (mkReadOnlyView ⟨fun _ => [], 0⟩ 2).2 .noArg).1
        (mkReadOnlyView ⟨fun _ => [], 0⟩ 2).2 (.fn ⟨4, "inc"⟩)).1
      { tableId := (mkReadOnlyView ⟨fun _ => [], 0⟩ 2).2.tableId } "inc" =
      .ok 4 :=
  c10_executor_aliases_live_table ⟨fun _ => [], 0⟩ 2 ⟨4, "inc"⟩ (by decide)

/-! ### C3: structural-inference caching

The claim as stated is false on the code: `_schema_cache` defaults to
`None`, and `infer_schema_from_data` then starts from a brand-new empty
cache dict, so two plain calls on structurally identical mappings create
two distinct `TypedDict` instances (their structural cache keys coincide,
but the caches are not shared).  Sharing holds exactly when the two calls
use the same cache — an explicitly supplied one, or the cache threaded
through one recursive inference. -/

/-- C3 counterexample: `{"a": 1, "b": {"c": "x"}}` and the structurally
identical `{"a": 2, "b": {"c": "y"}}` have equal structural cache keys, yet
two plain calls (cache argument omitted, as the claim's reading of two
separate calls implies) return distinct descriptor instances. -/
theorem c3_default_calls_do_not_share_cache :
    generateCacheKey
        [("a", PyVal.vint 1), ("b", PyVal.vdict [("c", PyVal.vstr "x")])] =
      generateCacheKey
        [("a", PyVal.vint 2), ("b", PyVal.vdict [("c", PyVal.vstr "y")])] ∧
    (inferSchemaFromData
        [("a", PyVal.vint 1), ("b", PyVal.vdict [("c", PyVal.vstr "x")])]
        "InferredSchema" none 0).1 ≠
      (inferSchemaFromData
        [("a", PyVal.vint 2), ("b", PyVal.vdict [("c", PyVal.vstr "y")])]
        "InferredSchema" none
        (inferSchemaFromData
          [("a", PyVal.vint 1), ("b", PyVal.vdict [("c", PyVal.vstr "x")])]
          "InferredSchema" none 0).2.nextId).1 := by
  decide

/-- Sanity check of the inlining in `inferFieldTy`: on a non-empty nested
dict it computes exactly what the recursive `infer_schema_from_data` call
(`inferSchemaAux` with the shared cache) computes. -/
theorem inferFieldTy_vdict_eq (e : String × PyVal)
    (es : List (String × PyVal)) (tn k : String) (st : TDState) :
    inferFieldTy (.vdict (e :: es)) tn k st =
      (.schemaRef
        (inferSchemaAux (e :: es) (tn ++ "_" ++ pyCapitalize k) st).1,
       (inferSchemaAux (e :: es) (tn ++ "_" ++ pyCapitalize k) st).2) := by
  cases h : alistLookup st.cache (generateCacheKey (e :: es)) <;>
    simp [inferFieldTy, inferSchemaAux, h]

/-- Inference always leaves its own structural key in the cache, bound to
the descriptor it returned. -/
theorem inferSchemaAux_cache_lookup (d : List (String × PyVal))
    (tn : String) (st : TDState) :
    alistLookup (inferSchemaAux d tn st).2.cache (generateCacheKey d) =
      some (inferSchemaAux d tn st).1 := by
  unfold inferSchemaAux
  cases hl : alistLookup st.cache (generateCacheKey d) with
  | some tid => simp [hl]
  | none => simp only [hl]; simp [alistLookup_dictInsert_self]

/-- C3 amended: when the two calls share one cache (the second call
receiving the cache state left by the first, as with an explicitly supplied
cache or within one recursive inference), two structurally identical
mappings yield the very same cached descriptor instance — and the second
call changes no state; and a mapping with the same keys but a different
nested leaf runtime type gets a different structural key and hence a
distinct cache entry with a distinct descriptor (shown at the claim's
concrete mappings `{"a": 1, "b": {"c": "x"}}` versus
`{"a": 1, "b": {"c": 5}}`). -/
theorem c3_shared_cache_reuses_descriptor (d1 d2 : List (String × PyVal))
    (tn : String) (st : TDState)
    (hkey : generateCacheKey d1 = generateCacheKey d2) :
    (inferSchemaAux d2 tn (inferSchemaAux d1 tn st).2).1 =
      (inferSchemaAux d1 tn st).1 ∧
    (inferSchemaAux d2 tn (inferSchemaAux d1 tn st).2).2 =
      (inferSchemaAux d1 tn st).2 ∧
    generateCacheKey
        [("a", PyVal.vint 1), ("b", PyVal.vdict [("c", PyVal.vstr "x")])] ≠
      generateCacheKey
        [("a", PyVal.vint 1), ("b", PyVal.vdict [("c", PyVal.vint 5)])] ∧
    alistLookup
        (inferSchemaAux
          [("a", PyVal.vint 1), ("b", PyVal.vdict [("c", PyVal.vint 5)])]
          "InferredSchema"
          (inferSchemaAux
            [("a", PyVal.vint 1), ("b", PyVal.vdict [("c", PyVal.vstr "x")])]
            "InferredSchema" ⟨[], 0⟩).2).2.cache
        (generateCacheKey
          [("a", PyVal.vint 1), ("b", PyVal.vdict [("c", PyVal.vstr "x")])]) =
      some (inferSchemaAux
        [("a", PyVal.vint 1), ("b", PyVal.vdict [("c", PyVal.vstr "x")])]
        "InferredSchema" ⟨[], 0⟩).1 ∧
    alistLookup
        (inferSchemaAux
          [("a", PyVal.vint 1), ("b", PyVal.vdict [("c", PyVal.vint 5)])]
          "InferredSchema"
          (inferSchemaAux
            [("a", PyVal.vint 1), ("b", PyVal.vdict [("c", PyVal.vstr "x")])]
            "InferredSchema" ⟨[], 0⟩).2).2.cache
        (generateCacheKey
          [("a", PyVal.vint 1), ("b", PyVal.vdict [("c", PyVal.vint 5)])]) =
      some (inferSchemaAux
        [("a", PyVal.vint 1), ("b", PyVal.vdict [("c", PyVal.vint 5)])]
        "InferredSchema"
        (inferSchemaAux
          [("a", PyVal.vint 1), ("b", PyVal.vdict [("c", PyVal.vstr "x")])]
          "InferredSchema" ⟨[], 0⟩).2).1 ∧
    (inferSchemaAux
        [("a", PyVal.vint 1), ("b", PyVal.vdict [("c", PyVal.vint 5)])]
        "InferredSchema"
        (inferSchemaAux
          [("a", PyVal.vint 1), ("b", PyVal.vdict [("c", PyVal.vstr "x")])]
          "InferredSchema" ⟨[], 0⟩).2).1 ≠
      (inferSchemaAux
        [("a", PyVal.vint 1), ("b", PyVal.vdict [("c", PyVal.vstr "x")])]
        "InferredSchema" ⟨[], 0⟩).1 := by
  have hhit : alistLookup (inferSchemaAux d1 tn st).2.cache
      (generateCacheKey d2) = some (inferSchemaAux d1 tn st).1 := by
    rw [← hkey]
    exact inferSchemaAux_cache_lookup d1 tn st
  have hpair : inferSchemaAux d2 tn (inferSchemaAux d1 tn st).2 =
      ((inferSchemaAux d1 tn st).1, (inferSchemaAux d1 tn st).2) := by
    generalize inferSchemaAux d1 tn st = r1 at hhit ⊢
    unfold inferSchemaAux
    simp [hhit]
  refine ⟨by rw [hpair], by rw [hpair], by decide, by decide, by decide,
    by decide⟩

/-- Witness for C3 (amended) at the claim's concrete shapes: the two
distinct-but-identically-shaped mappings `{"a": 1, "b": {"c": "x"}}` and
`{"a": 2, "b": {"c": "y"}}`, inferred back to back through one shared
cache starting empty. -/
theorem c3_shared_cache_reuses_descriptor_witness :
    (inferSchemaAux
        [("a", PyVal.vint 2), ("b", PyVal.vdict [("c", PyVal.vstr "y")])]
        "InferredSchema"
        (inferSchemaAux
          [("a", PyVal.vint 1), ("b", PyVal.vdict [("c", PyVal.vstr "x")])]
          "InferredSchema" ⟨[], 0⟩).2).1 =
      (inferSchemaAux
        [("a", PyVal.vint 1), ("b", PyVal.vdict [("c", PyVal.vstr "x")])]
        "InferredSchema" ⟨[], 0⟩).1 :=
  (c3_shared_cache_reuses_descriptor
    [("a", PyVal.vint 1), ("b", PyVal.vdict [("c", PyVal.vstr "x")])]
    [("a", PyVal.vint 2), ("b", PyVal.vdict [("c", PyVal.vstr "y")])]
    "InferredSchema" ⟨[], 0⟩ (by decide)).1

end PyEffectRef
